import Mathlib

/-!
Shallow embedding of `neurophox/meshmodel.py` (mesh topology / parameter model).

Modelling conventions:
* numpy float entries are modelled as rationals (`ℚ`); a 2-d array is a
  `List (List ℚ)` of rows.
* `MeshModel.__init__` can raise, so it is embedded as an `Except`-returning
  constructor `meshModelInit`.  The statements in the body are executed in the
  source order: the mask-building loop (which indexes `num_tunable[layer]` for
  every `layer < num_layers` and hence raises an out-of-bounds `IndexError`
  when `num_tunable` is too short) runs BEFORE the two validation checks.
* The process-wide numpy random source is made explicit: a state type `σ`, a
  `seedFn : Nat → σ` modelling `np.random.seed`, and a
  `randn : σ → Nat → Nat → Mat × σ` modelling `np.random.randn(r, c)`;
  `mzi_error_matrices` threads this state exactly as the source mutates the
  global stream.  The fixed constant `TEST_SEED` (imported from
  `neurophox.config`, outside this file) stays an abstract parameter.
* External collaborators absent from the source file (`to_stripe_array`,
  `grid_permutation`, `prm_permutation`, the block-sizing heuristics, the
  trigonometric functions and π/4 of numpy) are abstract parameters, except
  where only their result's shape matters, in which case the shape is
  modelled from the spec (see `gridPermutationShape`, `prmPermutationShape`).
-/

namespace Neurophox

/-- Rows of a 2-d numpy float array, rationals standing in for floats. -/
abbrev Mat : Type := List (List ℚ)

/-- The numpy shape of a matrix: row count together with the row widths
(numpy arrays are rectangular, so comparing the width list is the same as
comparing the common width). -/
def matShape (m : Mat) : Nat × List Nat :=
  (m.length, m.map List.length)

/-- Elementwise product of two matrices (numpy `*` on same-shape arrays). -/
def matMul (a b : Mat) : Mat :=
  List.zipWith (List.zipWith (· * ·)) a b

/-- Map a scalar function over every entry (numpy broadcasting `f(A)`). -/
def matMap (f : ℚ → ℚ) (m : Mat) : Mat :=
  m.map (List.map f)

/-- Entry at row `l`, column `k`, with the usual `0` default out of range. -/
def matGet (m : Mat) (l k : Nat) : ℚ :=
  (m.getD l []).getD k 0

/-- The exceptions `meshmodel.py` can raise, one constructor per distinct
`raise` site (plus the implicit numpy `IndexError` of an out-of-bounds
`num_tunable[layer]` read in the mask loop). -/
inductive MeshErr : Type where
  /-- numpy `IndexError`: `num_tunable[layer]` read out of bounds. -/
  | indexError : MeshErr
  /-- `ValueError("num_mzis, perm_idx num_layers mismatch.")`. -/
  | valueErrorLayers : MeshErr
  /-- `ValueError("units must be at least 2.")`. -/
  | valueErrorUnits : MeshErr
  /-- `AttributeError` raised when a supplied error array's shape differs
  from the mask's shape. -/
  | attributeError : MeshErr
  /-- `TypeError` raised when `bs_error` is none of float, ndarray, tuple. -/
  | typeError : MeshErr
  /-- numpy `ValueError("need at least one array to concatenate")` raised
  by `np.hstack` on an empty list of arrays. -/
  | valueErrorHstack : MeshErr
  deriving DecidableEq, Repr

/-- The dynamic type of the `bs_error` argument: a scalar (float or int),
a single ndarray, a tuple of two ndarrays, or anything else. -/
inductive BSErr : Type where
  | scalar : ℚ → BSErr
  | array : Mat → BSErr
  | pair : Mat → Mat → BSErr
  /-- Any value that is none of the three supported types. -/
  | other : BSErr
  deriving DecidableEq, Repr

/-- The fields of a fully constructed `MeshModel` that some claim consumes.
The three phase-initializer specs, the `basis` tag and `perm_idx` itself are
stored verbatim by the source and never involved in the claims below, so
they are not carried around. -/
structure MeshModel : Type where
  units : Nat
  numLayers : Nat
  numTunable : List Nat
  mask : Mat
  hadamard : Bool
  bsError : BSErr
  testing : Bool
  useDifferentErrors : Bool
  deriving DecidableEq, Repr

/-- One mask row: `mask[layer][:int(num_tunable[layer])] = 1` on a row of
`halfN` zeros — entries `i < k` become `1`, the rest stay `0` (a Python
slice silently clamps `k` to the row width). -/
def maskRow (k halfN : Nat) : List ℚ :=
  (List.range halfN).map (fun i => if i < k then (1 : ℚ) else 0)

/-- The mask-building loop
`for layer in range(num_layers): self.mask[layer][:int(self.num_tunable[layer])] = 1`,
layer by layer; reading `num_tunable[layer]` out of bounds raises
`IndexError` exactly as numpy does. -/
def buildMask (nt : List Nat) (halfN : Nat) : Nat → Except MeshErr Mat
  | 0 => Except.ok []
  | L + 1 =>
    match buildMask nt halfN L with
    | Except.error e => Except.error e
    | Except.ok rows =>
      match nt[L]? with
      | some k => Except.ok (rows ++ [maskRow k halfN])
      | none => Except.error MeshErr.indexError

/-- `MeshModel.__init__`, statements in source order: derive `units` and
`num_layers` from the shape `(permRows, permCols)` of `perm_idx`, default
`num_tunable` to `units // 2` per layer, run the mask loop, then the two
validation checks. -/
def meshModelInit (permRows permCols : Nat) (hadamard : Bool)
    (numTunableArg : Option (List Nat)) (bsError : BSErr)
    (testing useDifferentErrors : Bool) : Except MeshErr MeshModel :=
  let units := permCols
  let numLayers := permRows - 1
  let nt := numTunableArg.getD (List.replicate numLayers (units / 2))
  match buildMask nt (units / 2) numLayers with
  | Except.error e => Except.error e
  | Except.ok mask =>
    if nt.length ≠ numLayers then
      Except.error MeshErr.valueErrorLayers
    else if units < 2 then
      Except.error MeshErr.valueErrorUnits
    else
      Except.ok { units := units, numLayers := numLayers, numTunable := nt,
                  mask := mask, hadamard := hadamard, bsError := bsError,
                  testing := testing, useDifferentErrors := useDifferentErrors }

/-- The `mzi_error_matrices` property with the process-wide random source
made explicit: `seedFn` is `np.random.seed`, `randn s r c` draws an `r × c`
standard-normal sample and advances the stream, `testSeed` is the
`TEST_SEED` configuration constant.  Returns the `(e_l * mask, e_r * mask)`
pair together with the random-source state after the call. -/
def MeshModel.mziErrorMatrices {σ : Type} (seedFn : Nat → σ)
    (randn : σ → Nat → Nat → Mat × σ) (testSeed : Nat) (m : MeshModel)
    (s0 : σ) : Except MeshErr ((Mat × Mat) × σ) :=
  let s1 := if m.testing then seedFn testSeed else s0
  match m.bsError with
  | BSErr.scalar err =>
    let (r1, s2) := randn s1 m.numLayers (m.units / 2)
    let el := matMap (· * err) r1
    if m.useDifferentErrors then
      let s3 := if m.testing then seedFn (testSeed + 1) else s2
      let (r2, s4) := randn s3 m.numLayers (m.units / 2)
      let er := matMap (· * err) r2
      Except.ok ((matMul el m.mask, matMul er m.mask), s4)
    else
      Except.ok ((matMul el m.mask, matMul el m.mask), s2)
  | BSErr.array a =>
    if matShape a ≠ matShape m.mask then Except.error MeshErr.attributeError
    else Except.ok ((matMul a m.mask, matMul a m.mask), s1)
  | BSErr.pair a b =>
    if matShape a ≠ matShape m.mask ∨ matShape b ≠ matShape m.mask then
      Except.error MeshErr.attributeError
    else Except.ok ((matMul a m.mask, matMul b m.mask), s1)
  | BSErr.other => Except.error MeshErr.typeError

/-- The `mzi_error_tensors` property.  It first resolves
`(e_l, e_r) = self.mzi_error_matrices` (threading the explicit random
state), then computes the four striped coefficient arrays `cc`, `cs`, `sc`,
`ss` in that source order and returns them as the tuple
`(ss, cs, sc, cc)`.  The external `to_stripe_array` transform, numpy's
`sin`, `cos` and the constant `π/4` are abstract parameters (`stripe`,
`sinF`, `cosF`, `quarterPi`). -/
def MeshModel.mziErrorTensors {σ : Type} (seedFn : Nat → σ)
    (randn : σ → Nat → Nat → Mat × σ) (testSeed : Nat)
    (sinF cosF : ℚ → ℚ) (quarterPi : ℚ) (stripe : Mat → Nat → Mat)
    (m : MeshModel) (s0 : σ) :
    Except MeshErr ((Mat × Mat × Mat × Mat) × σ) :=
  match m.mziErrorMatrices seedFn randn testSeed s0 with
  | Except.error e => Except.error e
  | Except.ok ((el, er), s1) =>
    let cc := matMap (2 * ·) (stripe (matMul
      (matMap (fun x => cosF (quarterPi + x)) el)
      (matMap (fun x => cosF (quarterPi + x)) er)) m.units)
    let cs := matMap (2 * ·) (stripe (matMul
      (matMap (fun x => cosF (quarterPi + x)) el)
      (matMap (fun x => sinF (quarterPi + x)) er)) m.units)
    let sc := matMap (2 * ·) (stripe (matMul
      (matMap (fun x => sinF (quarterPi + x)) el)
      (matMap (fun x => cosF (quarterPi + x)) er)) m.units)
    let ss := matMap (2 * ·) (stripe (matMul
      (matMap (fun x => sinF (quarterPi + x)) el)
      (matMap (fun x => sinF (quarterPi + x)) er)) m.units)
    Except.ok ((ss, cs, sc, cc), s1)

/-- Modelled from the spec: the external Permutation Provider's
`grid_permutation(units, num_layers)` (absent from the source under
verification) returns an integer array of shape
`(num_layers + 1) × units` — §6 lists the `(L+1)×N` layout and
`MeshModel.__init__` reads `units` from `shape[1]` and `num_layers` from
`shape[0] - 1`, which forces this orientation.  Only the shape is ever
consumed, so only the shape is modelled. -/
def gridPermutationShape (units numLayers : Nat) : Nat × Nat :=
  (numLayers + 1, units)

/-- `num_layers if num_layers else units`: Python truthiness makes both
`None` and `0` fall back to `units`. -/
def rectResolveNumLayers (units : Nat) (numLayers : Option Nat) : Nat :=
  match numLayers with
  | some n => if n ≠ 0 then n else units
  | none => units

/-- The rectangular tunable-count array:
`num_mzis = ones(L) * units // 2` followed by
`num_mzis[1::2] = (units - 1) // 2` — even-indexed layers keep
`units / 2`, odd-indexed layers get `(units - 1) / 2`. -/
def rectNumTunable (units L : Nat) : List Nat :=
  (List.range L).map (fun l => if l % 2 = 1 then (units - 1) / 2 else units / 2)

/-- `RectangularMeshModel.__init__`: resolve `num_layers` by truthiness,
request a grid permutation of that depth, compute the alternating
tunable-count array, delegate to the base constructor (the source does not
pass `testing` or `use_different_errors`, so they keep their `False`
defaults). -/
def rectangularMeshModel (units : Nat) (numLayers : Option Nat)
    (hadamard : Bool) (bsError : BSErr) : Except MeshErr MeshModel :=
  let L := rectResolveNumLayers units numLayers
  let shape := gridPermutationShape units L
  meshModelInit shape.1 shape.2 hadamard (some (rectNumTunable units L))
    bsError false false

/-- The triangular device-count profile
`np.hstack([np.arange(1, units), np.arange(units - 2, 0, -1)])`:
ascending `1 .. units-1` then descending `units-2 .. 1`. -/
def triProfile (units : Nat) : List Nat :=
  ((List.range (units - 1)).map (· + 1)) ++
    ((List.range (units - 2)).map (fun i => units - 2 - i))

/-- The triangular tunable-count array `(profile + 1) // 2`, i.e. the
ceiling `⌈v/2⌉` of each profile entry `v`. -/
def triNumTunable (units : Nat) : List Nat :=
  (triProfile units).map (fun v => (v + 1) / 2)

/-- `TriangularMeshModel.__init__`: request a grid permutation of depth
`2 * units - 3`, compute the ceil-halved diamond profile counts, delegate
to the base constructor. -/
def triangularMeshModel (units : Nat) (hadamard : Bool) (bsError : BSErr) :
    Except MeshErr MeshModel :=
  let shape := gridPermutationShape units (2 * units - 3)
  meshModelInit shape.1 shape.2 hadamard (some (triNumTunable units))
    bsError false false

/-- The three-way block-size resolution of
`PermutingRectangularMeshModel.__init__`: a present
`tunable_layers_per_block` goes through the efficient heuristic `eff` and
overrides everything; otherwise, when either explicit list is missing, the
default heuristic `dflt` applies; only when both are supplied are they used
as `(block_sizes, sampling_frequencies)`.  The two external heuristics
(absent from the source under verification) are abstract parameters. -/
def prmBlockSizes (eff : Nat → Nat → List Nat × List Nat)
    (dflt : Nat → List Nat × List Nat) (units : Nat)
    (tunableLayersPerBlock : Option Nat)
    (numTunableLayersList samplingFrequencies : Option (List Nat)) :
    List Nat × List Nat :=
  match tunableLayersPerBlock with
  | some t => eff units t
  | none =>
    match samplingFrequencies, numTunableLayersList with
    | some freqs, some sizes => (sizes, freqs)
    | some _, none => dflt units
    | none, _ => dflt units

/-- The tunable-count array of `PermutingRectangularMeshModel`: the
`num_mzis_list` loop produces, for each block of size `B`, one length-`B`
array following the rectangular alternating policy, and
`np.hstack(num_mzis_list)` concatenates them — raising
`ValueError("need at least one array to concatenate")` when the resolved
block list is empty (then `num_mzis_list == []`). -/
def prmNumTunable (units : Nat) (blockSizes : List Nat) :
    Except MeshErr (List Nat) :=
  let numMzisList := blockSizes.map (fun b => rectNumTunable units b)
  if numMzisList.isEmpty then Except.error MeshErr.valueErrorHstack
  else Except.ok numMzisList.flatten

/-- Modelled from the spec: the external `prm_permutation(units,
tunable_block_sizes, sampling_frequencies, butterfly)` (absent from the
source under verification) returns an `(L+1) × N` integer array per §6,
where the total depth `L` is the sum of the block sizes (each block
contributes its size in layers).  Only the shape is consumed. -/
def prmPermutationShape (units : Nat) (blockSizes : List Nat) : Nat × Nat :=
  (blockSizes.sum + 1, units)

/-- `PermutingRectangularMeshModel.__init__`: resolve the block sizes and
sampling frequencies, build and `np.hstack` the per-block tunable counts
(this is where an empty resolved block list raises, before any permutation
is requested), then request the permuting-rectangular permutation and
delegate to the base constructor. -/
def permutingRectangularMeshModel (eff : Nat → Nat → List Nat × List Nat)
    (dflt : Nat → List Nat × List Nat) (units : Nat)
    (tunableLayersPerBlock : Option Nat)
    (numTunableLayersList samplingFrequencies : Option (List Nat))
    (bsError : BSErr) (hadamard : Bool) : Except MeshErr MeshModel :=
  match prmNumTunable units (prmBlockSizes eff dflt units
      tunableLayersPerBlock numTunableLayersList samplingFrequencies).1 with
  | Except.error e => Except.error e
  | Except.ok numMzis =>
    meshModelInit
      (prmPermutationShape units (prmBlockSizes eff dflt units
        tunableLayersPerBlock numTunableLayersList samplingFrequencies).1).1
      (prmPermutationShape units (prmBlockSizes eff dflt units
        tunableLayersPerBlock numTunableLayersList samplingFrequencies).1).2
      hadamard (some numMzis) bsError false false

/-- A small concrete model used to evaluate the theorems below on concrete
inputs: the result of `meshModelInit 3 5 false (some [2, 1]) (scalar 0)
false false`. -/
def meshModelWitness : MeshModel :=
  { units := 5, numLayers := 2, numTunable := [2, 1],
    mask := [[1, 1], [1, 0]], hadamard := false, bsError := BSErr.scalar 0,
    testing := false, useDifferentErrors := false }

/-- Concrete model carrying an explicit error array, for evaluating the
error-dispatch theorems. -/
def arrayErrModel : MeshModel :=
  { units := 4, numLayers := 1, numTunable := [1],
    mask := [[1, 0]], hadamard := false, bsError := BSErr.array [[2, 3]],
    testing := false, useDifferentErrors := false }

/-- Concrete model in testing mode with a scalar error, for evaluating the
reseed-determinism theorem. -/
def scalarTestModel : MeshModel :=
  { units := 2, numLayers := 1, numTunable := [1], mask := [[1]],
    hadamard := false, bsError := BSErr.scalar 2, testing := true,
    useDifferentErrors := false }

/-- Concrete model in testing mode carrying an explicit error array, for
evaluating the reseed-frame-effect theorem. -/
def testingArrayModel : MeshModel :=
  { units := 2, numLayers := 1, numTunable := [1], mask := [[1]],
    hadamard := false, bsError := BSErr.array [[3]], testing := true,
    useDifferentErrors := false }

/-- Concrete model carrying an explicit error array, for evaluating the
error-tensor theorem. -/
def tensorModel : MeshModel :=
  { units := 2, numLayers := 1, numTunable := [1], mask := [[1]],
    hadamard := false, bsError := BSErr.array [[1]], testing := false,
    useDifferentErrors := false }

/-! ### Helper lemmas -/

theorem buildMask_ok (nt : List Nat) (halfN : Nat) (L : Nat)
    (h : L ≤ nt.length) :
    buildMask nt halfN L =
      Except.ok ((List.range L).map (fun l => maskRow (nt.getD l 0) halfN)) := by
  induction L with
  | zero => rfl
  | succ L ih =>
    have hL : L ≤ nt.length := Nat.le_of_succ_le h
    have hLt : L < nt.length := h
    simp only [buildMask, ih hL]
    rw [List.getElem?_eq_getElem hLt]
    simp only [List.range_succ, List.map_append, List.map_cons, List.map_nil]
    rw [List.getD_eq_getElem nt 0 hLt]

theorem buildMask_err (nt : List Nat) (halfN : Nat) (L : Nat)
    (h : nt.length < L) :
    buildMask nt halfN L = Except.error MeshErr.indexError := by
  induction L with
  | zero => omega
  | succ L ih =>
    rcases Nat.lt_or_ge nt.length L with hlt | hge
    · simp only [buildMask, ih hlt]
    · have heq : nt.length = L := by omega
      simp only [buildMask, buildMask_ok nt halfN L (le_of_eq heq.symm)]
      rw [List.getElem?_eq_none (by omega)]

theorem meshModelInit_spec (L N : Nat) (hd : Bool) (nt : List Nat)
    (bs : BSErr) (t u : Bool) :
    meshModelInit (L + 1) N hd (some nt) bs t u =
      if nt.length < L then Except.error MeshErr.indexError
      else if nt.length ≠ L then Except.error MeshErr.valueErrorLayers
      else if N < 2 then Except.error MeshErr.valueErrorUnits
      else Except.ok
        { units := N, numLayers := L, numTunable := nt,
          mask := (List.range L).map (fun l => maskRow (nt.getD l 0) (N / 2)),
          hadamard := hd, bsError := bs, testing := t,
          useDifferentErrors := u } := by
  unfold meshModelInit
  simp only [Option.getD_some, Nat.add_sub_cancel]
  rcases Nat.lt_or_ge nt.length L with hlt | hge
  · rw [buildMask_err nt (N / 2) L hlt]
    simp [hlt]
  · rw [buildMask_ok nt (N / 2) L hge]
    have : ¬ nt.length < L := by omega
    simp only [if_neg this]

theorem matGet_rangeMask (nt : List Nat) (L halfN l k : Nat) (hl : l < L)
    (hk : k < halfN) :
    matGet ((List.range L).map (fun i => maskRow (nt.getD i 0) halfN)) l k
      = if k < nt.getD l 0 then 1 else 0 := by
  simp only [matGet, List.getD_eq_getElem?_getD]
  rw [List.getElem?_map, List.getElem?_range hl]
  simp only [Option.map_some', Option.getD_some, maskRow]
  rw [List.getElem?_map, List.getElem?_range hk]
  simp

theorem rectNumTunable_length (units L : Nat) :
    (rectNumTunable units L).length = L := by
  simp [rectNumTunable]

theorem rectNumTunable_getD (units L l : Nat) (hl : l < L) :
    (rectNumTunable units L).getD l 0 =
      if l % 2 = 1 then (units - 1) / 2 else units / 2 := by
  rw [rectNumTunable, List.getD_eq_getElem?_getD, List.getElem?_map,
    List.getElem?_range hl]
  rfl

theorem matGet_matMul_zero (x mask : Mat) (l k : Nat)
    (h : matGet mask l k = 0) : matGet (matMul x mask) l k = 0 := by
  simp only [matGet, matMul, List.getD_eq_getElem?_getD] at h ⊢
  rw [List.getElem?_zipWith']
  cases hx : x[l]? with
  | none => simp
  | some rx =>
    cases hm : mask[l]? with
    | none => simp
    | some rm =>
      rw [hm] at h
      simp only [Option.map_some', Option.some_bind, Option.getD_some] at h ⊢
      rw [List.getElem?_zipWith']
      cases hxk : rx[k]? with
      | none => simp
      | some a =>
        cases hmk : rm[k]? with
        | none => simp
        | some b =>
          rw [hmk] at h
          simp only [Option.getD_some] at h
          simp [h]

theorem mziErrorMatrices_array {σ : Type} (seedFn : Nat → σ)
    (randn : σ → Nat → Nat → Mat × σ) (testSeed : Nat) (m : MeshModel)
    (s0 : σ) (a : Mat) (hb : m.bsError = BSErr.array a) :
    m.mziErrorMatrices seedFn randn testSeed s0 =
      if matShape a ≠ matShape m.mask then Except.error MeshErr.attributeError
      else Except.ok ((matMul a m.mask, matMul a m.mask),
        if m.testing then seedFn testSeed else s0) := by
  unfold MeshModel.mziErrorMatrices
  rw [hb]

theorem mziErrorMatrices_pair {σ : Type} (seedFn : Nat → σ)
    (randn : σ → Nat → Nat → Mat × σ) (testSeed : Nat) (m : MeshModel)
    (s0 : σ) (a b : Mat) (hb : m.bsError = BSErr.pair a b) :
    m.mziErrorMatrices seedFn randn testSeed s0 =
      if matShape a ≠ matShape m.mask ∨ matShape b ≠ matShape m.mask then
        Except.error MeshErr.attributeError
      else Except.ok ((matMul a m.mask, matMul b m.mask),
        if m.testing then seedFn testSeed else s0) := by
  unfold MeshModel.mziErrorMatrices
  rw [hb]

theorem mziErrorMatrices_other {σ : Type} (seedFn : Nat → σ)
    (randn : σ → Nat → Nat → Mat × σ) (testSeed : Nat) (m : MeshModel)
    (s0 : σ) (hb : m.bsError = BSErr.other) :
    m.mziErrorMatrices seedFn randn testSeed s0 =
      Except.error MeshErr.typeError := by
  unfold MeshModel.mziErrorMatrices
  rw [hb]

theorem mziErrorMatrices_scalar {σ : Type} (seedFn : Nat → σ)
    (randn : σ → Nat → Nat → Mat × σ) (testSeed : Nat) (m : MeshModel)
    (s0 : σ) (err : ℚ) (hb : m.bsError = BSErr.scalar err) :
    m.mziErrorMatrices seedFn randn testSeed s0 =
      (if m.useDifferentErrors then
        Except.ok ((matMul (matMap (· * err)
            (randn (if m.testing then seedFn testSeed else s0)
              m.numLayers (m.units / 2)).1) m.mask,
          matMul (matMap (· * err)
            (randn (if m.testing then seedFn (testSeed + 1) else
                (randn (if m.testing then seedFn testSeed else s0)
                  m.numLayers (m.units / 2)).2)
              m.numLayers (m.units / 2)).1) m.mask),
         (randn (if m.testing then seedFn (testSeed + 1) else
             (randn (if m.testing then seedFn testSeed else s0)
               m.numLayers (m.units / 2)).2)
           m.numLayers (m.units / 2)).2)
      else
        Except.ok ((matMul (matMap (· * err)
            (randn (if m.testing then seedFn testSeed else s0)
              m.numLayers (m.units / 2)).1) m.mask,
          matMul (matMap (· * err)
            (randn (if m.testing then seedFn testSeed else s0)
              m.numLayers (m.units / 2)).1) m.mask),
         (randn (if m.testing then seedFn testSeed else s0)
           m.numLayers (m.units / 2)).2)) := by
  unfold MeshModel.mziErrorMatrices
  rw [hb]

/-! ### Claim theorems -/

/-- C1, counterexample: constructing from a `(1+1) × 2` permutation with the
empty `num_tunable` (length `0 ≠ 1 = L`) fails with the out-of-bounds
`IndexError` of the mask-building loop, not with the construction-time
validation `ValueError` — the loop runs before the length check. -/
theorem c1_indexError_counterexample :
    meshModelInit 2 2 false (some []) (BSErr.scalar 0) false false
        = Except.error MeshErr.indexError
      ∧ MeshErr.indexError ≠ MeshErr.valueErrorLayers := by
  exact ⟨rfl, by decide⟩

/-- C1 (amended): construction from a `(L+1) × N` permutation always fails
when `num_tunable` has length ≠ L — with the validation `ValueError` when
the length exceeds `L`, but with the mask loop's `IndexError` when it is
short of `L` — and always fails with the validation `ValueError` for
`units < 2` once the length matches; in every failing case no object is
produced. -/
theorem meshModelInit_validation (L N : Nat) (nt : List Nat) (hd : Bool)
    (bs : BSErr) (t u : Bool) :
    (L < nt.length →
      meshModelInit (L + 1) N hd (some nt) bs t u =
        Except.error MeshErr.valueErrorLayers)
  ∧ (nt.length < L →
      meshModelInit (L + 1) N hd (some nt) bs t u =
        Except.error MeshErr.indexError)
  ∧ (nt.length = L → N < 2 →
      meshModelInit (L + 1) N hd (some nt) bs t u =
        Except.error MeshErr.valueErrorUnits)
  ∧ (nt.length ≠ L →
      ∀ m, meshModelInit (L + 1) N hd (some nt) bs t u ≠ Except.ok m) := by
  rw [meshModelInit_spec]
  refine ⟨?_, ?_, ?_, ?_⟩
  · intro h
    rw [if_neg (by omega : ¬ nt.length < L),
      if_pos (by omega : nt.length ≠ L)]
  · intro h
    rw [if_pos h]
  · intro h1 h2
    rw [if_neg (by omega : ¬ nt.length < L),
      if_neg (show ¬ nt.length ≠ L by omega), if_pos h2]
  · intro h m
    rcases Nat.lt_or_ge nt.length L with hlt | hge
    · rw [if_pos hlt]
      exact fun hc => Except.noConfusion hc
    · rw [if_neg (by omega : ¬ nt.length < L),
        if_pos (by omega : nt.length ≠ L)]
      exact fun hc => Except.noConfusion hc

/-- C1 witness. -/
theorem meshModelInit_validation_witness :
    meshModelInit 2 3 false (some [1, 1]) (BSErr.scalar 0) false false
      = Except.error MeshErr.valueErrorLayers :=
  (meshModelInit_validation 1 3 [1, 1] false (BSErr.scalar 0) false false).1
    (by decide)

/-- C2: every successfully constructed model's mask has shape
`(L, N / 2)`, its entry `(l, k)` is `1` exactly when `k < num_tunable[l]`
and `0` otherwise, and the whole mask is the pure function
of the construction inputs given by `maskRow` — it is fixed at
construction (all accessors of the embedding are pure functions out of the
model, so no later operation can change it). -/
theorem mask_shape_and_content (L N : Nat) (hd : Bool) (nt : List Nat)
    (bs : BSErr) (t u : Bool) (m : MeshModel)
    (hok : meshModelInit (L + 1) N hd (some nt) bs t u = Except.ok m) :
    m.mask.length = L
  ∧ (∀ row ∈ m.mask, row.length = N / 2)
  ∧ (∀ l, l < L → ∀ k, k < N / 2 →
      matGet m.mask l k = if k < nt.getD l 0 then 1 else 0)
  ∧ m.mask = (List.range L).map (fun l => maskRow (nt.getD l 0) (N / 2)) := by
  rw [meshModelInit_spec] at hok
  split_ifs at hok
  injection hok with hm
  subst hm
  refine ⟨by simp, ?_, ?_, rfl⟩
  · intro row hrow
    rcases List.mem_map.mp hrow with ⟨i, _, rfl⟩
    simp [maskRow]
  · intro l hl k hk
    exact matGet_rangeMask nt L (N / 2) l k hl hk

/-- C2 witness. -/
theorem mask_shape_and_content_witness :
    (meshModelWitness.mask.length = 2
      ∧ (∀ row ∈ meshModelWitness.mask, row.length = 5 / 2)
      ∧ (∀ l, l < 2 → ∀ k, k < 5 / 2 →
          matGet meshModelWitness.mask l k =
            if k < [2, 1].getD l 0 then 1 else 0)
      ∧ meshModelWitness.mask =
          (List.range 2).map (fun l => maskRow ([2, 1].getD l 0) (5 / 2))) :=
  mask_shape_and_content 2 5 false [2, 1] (BSErr.scalar 0) false false
    meshModelWitness (by rfl)

/-- C4: with a non-scalar `bs_error`, `mzi_error_matrices` is a raises-iff
dispatch — a single array fails with the shape-mismatch `AttributeError`
exactly when its shape differs from the mask's, and otherwise yields
`e_l = e_r =` that array (masked); a pair fails exactly when either
component's shape differs, and otherwise yields the (masked) pair; anything
else fails with `TypeError`; and every successful result carries the
element-wise mask product, so entries where the mask is `0` (the
non-tunable slots) are `0` in both returned arrays. -/
theorem mzi_error_matrices_nonscalar {σ : Type} (seedFn : Nat → σ)
    (randn : σ → Nat → Nat → Mat × σ) (testSeed : Nat) (m : MeshModel)
    (s0 : σ) :
    (∀ a, m.bsError = BSErr.array a →
      ((m.mziErrorMatrices seedFn randn testSeed s0 =
            Except.error MeshErr.attributeError)
          ↔ matShape a ≠ matShape m.mask)
        ∧ (matShape a = matShape m.mask →
            m.mziErrorMatrices seedFn randn testSeed s0 =
              Except.ok ((matMul a m.mask, matMul a m.mask),
                if m.testing then seedFn testSeed else s0)))
  ∧ (∀ a b, m.bsError = BSErr.pair a b →
      ((m.mziErrorMatrices seedFn randn testSeed s0 =
            Except.error MeshErr.attributeError)
          ↔ (matShape a ≠ matShape m.mask ∨ matShape b ≠ matShape m.mask))
        ∧ (matShape a = matShape m.mask → matShape b = matShape m.mask →
            m.mziErrorMatrices seedFn randn testSeed s0 =
              Except.ok ((matMul a m.mask, matMul b m.mask),
                if m.testing then seedFn testSeed else s0)))
  ∧ (m.bsError = BSErr.other →
      m.mziErrorMatrices seedFn randn testSeed s0 =
        Except.error MeshErr.typeError)
  ∧ (∀ el er s1, m.mziErrorMatrices seedFn randn testSeed s0 =
        Except.ok ((el, er), s1) →
      ∀ l k, matGet m.mask l k = 0 → matGet el l k = 0 ∧ matGet er l k = 0) := by
  refine ⟨?_, ?_, ?_, ?_⟩
  · intro a ha
    rw [mziErrorMatrices_array seedFn randn testSeed m s0 a ha]
    constructor
    · by_cases hs : matShape a ≠ matShape m.mask
      · simp [hs]
      · simp [hs]
    · intro hs
      rw [if_neg (by simp [hs])]
  · intro a b hab
    rw [mziErrorMatrices_pair seedFn randn testSeed m s0 a b hab]
    constructor
    · by_cases hs : matShape a ≠ matShape m.mask ∨ matShape b ≠ matShape m.mask
      · simp [hs]
      · simp [hs]
    · intro hsa hsb
      rw [if_neg (by simp [hsa, hsb])]
  · intro ho
    exact mziErrorMatrices_other seedFn randn testSeed m s0 ho
  · intro el er s1 hok l k hz
    rcases hb : m.bsError with err | a | ⟨a, b⟩ | _
    · rw [mziErrorMatrices_scalar seedFn randn testSeed m s0 err hb] at hok
      by_cases hu : m.useDifferentErrors
      · rw [if_pos hu] at hok
        injection hok with hok'
        injection hok' with hpair hstate
        injection hpair with hel her
        exact ⟨hel ▸ matGet_matMul_zero _ _ _ _ hz,
          her ▸ matGet_matMul_zero _ _ _ _ hz⟩
      · rw [if_neg hu] at hok
        injection hok with hok'
        injection hok' with hpair hstate
        injection hpair with hel her
        exact ⟨hel ▸ matGet_matMul_zero _ _ _ _ hz,
          her ▸ matGet_matMul_zero _ _ _ _ hz⟩
    · rw [mziErrorMatrices_array seedFn randn testSeed m s0 a hb] at hok
      by_cases hs : matShape a ≠ matShape m.mask
      · rw [if_pos hs] at hok
        exact Except.noConfusion hok
      · rw [if_neg hs] at hok
        injection hok with hok'
        injection hok' with hpair hstate
        injection hpair with hel her
        exact ⟨hel ▸ matGet_matMul_zero _ _ _ _ hz,
          her ▸ matGet_matMul_zero _ _ _ _ hz⟩
    · rw [mziErrorMatrices_pair seedFn randn testSeed m s0 a b hb] at hok
      by_cases hs : matShape a ≠ matShape m.mask ∨ matShape b ≠ matShape m.mask
      · rw [if_pos hs] at hok
        exact Except.noConfusion hok
      · rw [if_neg hs] at hok
        injection hok with hok'
        injection hok' with hpair hstate
        injection hpair with hel her
        exact ⟨hel ▸ matGet_matMul_zero _ _ _ _ hz,
          her ▸ matGet_matMul_zero _ _ _ _ hz⟩
    · rw [mziErrorMatrices_other seedFn randn testSeed m s0 hb] at hok
      exact Except.noConfusion hok


/-- C4 witness. -/
theorem mzi_error_matrices_nonscalar_witness :
    arrayErrModel.mziErrorMatrices (fun s => s) (fun s _ _ => ([], s)) 7 0 =
      Except.ok (([[2, 0]], [[2, 0]]), 0) := by
  have h := ((mzi_error_matrices_nonscalar (fun s => s)
    (fun s _ _ => ([], s)) 7 arrayErrModel 0).1 [[2, 3]] rfl).2 (by decide)
  refine h.trans ?_
  norm_num [arrayErrModel, matMul]

/-- C5: with `testing = True` and a scalar `bs_error`, the call first
reseeds the random source to the fixed test seed, draws `e_l` from that
seeded state, reseeds to (test seed + 1) before drawing `e_r` when
`use_different_errors` is set, and returns `e_r = e_l` exactly otherwise;
consequently any two accesses, from arbitrary and unrelated incoming
random-source states, return the identical result. -/
theorem mzi_error_matrices_test_determinism {σ : Type} (seedFn : Nat → σ)
    (randn : σ → Nat → Nat → Mat × σ) (testSeed : Nat) (m : MeshModel)
    (err : ℚ) (hT : m.testing = true) (hB : m.bsError = BSErr.scalar err) :
    (∀ s0 : σ, m.mziErrorMatrices seedFn randn testSeed s0 =
      (if m.useDifferentErrors then
        Except.ok ((matMul (matMap (· * err)
            (randn (seedFn testSeed) m.numLayers (m.units / 2)).1) m.mask,
          matMul (matMap (· * err)
            (randn (seedFn (testSeed + 1)) m.numLayers (m.units / 2)).1) m.mask),
         (randn (seedFn (testSeed + 1)) m.numLayers (m.units / 2)).2)
      else
        Except.ok ((matMul (matMap (· * err)
            (randn (seedFn testSeed) m.numLayers (m.units / 2)).1) m.mask,
          matMul (matMap (· * err)
            (randn (seedFn testSeed) m.numLayers (m.units / 2)).1) m.mask),
         (randn (seedFn testSeed) m.numLayers (m.units / 2)).2)))
  ∧ (∀ s0 s0' : σ, m.mziErrorMatrices seedFn randn testSeed s0 =
      m.mziErrorMatrices seedFn randn testSeed s0')
  ∧ (m.useDifferentErrors = false → ∀ s0 : σ, ∃ e s2,
      m.mziErrorMatrices seedFn randn testSeed s0 =
        Except.ok ((e, e), s2)) := by
  have key : ∀ s0 : σ, m.mziErrorMatrices seedFn randn testSeed s0 =
      (if m.useDifferentErrors then
        Except.ok ((matMul (matMap (· * err)
            (randn (seedFn testSeed) m.numLayers (m.units / 2)).1) m.mask,
          matMul (matMap (· * err)
            (randn (seedFn (testSeed + 1)) m.numLayers (m.units / 2)).1) m.mask),
         (randn (seedFn (testSeed + 1)) m.numLayers (m.units / 2)).2)
      else
        Except.ok ((matMul (matMap (· * err)
            (randn (seedFn testSeed) m.numLayers (m.units / 2)).1) m.mask,
          matMul (matMap (· * err)
            (randn (seedFn testSeed) m.numLayers (m.units / 2)).1) m.mask),
         (randn (seedFn testSeed) m.numLayers (m.units / 2)).2)) := by
    intro s0
    rw [mziErrorMatrices_scalar seedFn randn testSeed m s0 err hB]
    simp only [hT, if_true]
  refine ⟨key, fun s0 s0' => (key s0).trans (key s0').symm, ?_⟩
  intro hu s0
  refine ⟨matMul (matMap (· * err)
      (randn (seedFn testSeed) m.numLayers (m.units / 2)).1) m.mask,
    (randn (seedFn testSeed) m.numLayers (m.units / 2)).2, ?_⟩
  rw [key s0, if_neg (by simp [hu])]

/-- C5 witness. -/
theorem mzi_error_matrices_test_determinism_witness :
    scalarTestModel.mziErrorMatrices (fun n => n * 10)
        (fun s _ _ => ([[(s : ℚ)]], s + 1)) 3 0 =
      scalarTestModel.mziErrorMatrices (fun n => n * 10)
        (fun s _ _ => ([[(s : ℚ)]], s + 1)) 3 5 :=
  (mzi_error_matrices_test_determinism (fun n => n * 10)
    (fun s _ _ => ([[(s : ℚ)]], s + 1)) 3 scalarTestModel 2 rfl rfl).2.1 0 5

/-- C9: with `testing = True`, `mzi_error_matrices` reseeds the
process-wide random source to the fixed test seed before it inspects
`bs_error`'s type, so even when `bs_error` is an array or a pair — and no
random sample is drawn — the shared stream ends the call in the freshly
seeded state `seedFn testSeed`, regardless of the incoming state; whenever
the incoming state was not already that seeded state, the call has changed
it, although the returned value is the deterministic masked product of the
stored fields. -/
theorem mzi_error_matrices_reseed_frame {σ : Type} (seedFn : Nat → σ)
    (randn : σ → Nat → Nat → Mat × σ) (testSeed : Nat) (m : MeshModel)
    (hT : m.testing = true) :
    (∀ (a : Mat) (s0 : σ), m.bsError = BSErr.array a →
        matShape a = matShape m.mask →
        m.mziErrorMatrices seedFn randn testSeed s0 =
          Except.ok ((matMul a m.mask, matMul a m.mask), seedFn testSeed))
  ∧ (∀ (a b : Mat) (s0 : σ), m.bsError = BSErr.pair a b →
        matShape a = matShape m.mask → matShape b = matShape m.mask →
        m.mziErrorMatrices seedFn randn testSeed s0 =
          Except.ok ((matMul a m.mask, matMul b m.mask), seedFn testSeed))
  ∧ (∀ (a : Mat) (s0 : σ), m.bsError = BSErr.array a →
        matShape a = matShape m.mask → s0 ≠ seedFn testSeed →
        ∃ v s1, m.mziErrorMatrices seedFn randn testSeed s0 =
            Except.ok (v, s1) ∧ s1 ≠ s0) := by
  have harr : ∀ (a : Mat) (s0 : σ), m.bsError = BSErr.array a →
      matShape a = matShape m.mask →
      m.mziErrorMatrices seedFn randn testSeed s0 =
        Except.ok ((matMul a m.mask, matMul a m.mask), seedFn testSeed) := by
    intro a s0 hb hs
    rw [mziErrorMatrices_array seedFn randn testSeed m s0 a hb,
      if_neg (by simp [hs])]
    simp [hT]
  refine ⟨harr, ?_, ?_⟩
  · intro a b s0 hb hsa hsb
    rw [mziErrorMatrices_pair seedFn randn testSeed m s0 a b hb,
      if_neg (by simp [hsa, hsb])]
    simp [hT]
  · intro a s0 hb hs hne
    exact ⟨(matMul a m.mask, matMul a m.mask), seedFn testSeed,
      harr a s0 hb hs, fun hc => hne hc.symm⟩

/-- C9 witness. -/
theorem mzi_error_matrices_reseed_frame_witness :
    testingArrayModel.mziErrorMatrices (fun n => n + 100)
        (fun s _ _ => ([], s)) 7 5 =
      Except.ok (([[3]], [[3]]), 107) := by
  have h := (mzi_error_matrices_reseed_frame (fun n => n + 100)
    (fun s _ _ => ([], s)) 7 testingArrayModel rfl).1 [[3]] 5 rfl (by decide)
  refine h.trans ?_
  norm_num [testingArrayModel, matMul]

/-- C3: `mzi_error_tensors` applied to the pair `(e_l, e_r)` resolved by
`mzi_error_matrices` returns exactly the four `stripe`-transformed arrays,
in the fixed order (ss, cs, sc, cc), with
`ss = 2·stripe(sin(π/4+e_l)·sin(π/4+e_r))`,
`cs = 2·stripe(cos(π/4+e_l)·sin(π/4+e_r))`,
`sc = 2·stripe(sin(π/4+e_l)·cos(π/4+e_r))`,
`cc = 2·stripe(cos(π/4+e_l)·cos(π/4+e_r))`; and the value returned is a
deterministic function of `(e_l, e_r)` alone — any access whose resolved
error pair coincides yields the same four arrays. -/
theorem mzi_error_tensors_spec {σ : Type} (seedFn : Nat → σ)
    (randn : σ → Nat → Nat → Mat × σ) (testSeed : Nat)
    (sinF cosF : ℚ → ℚ) (quarterPi : ℚ) (stripe : Mat → Nat → Mat)
    (m : MeshModel) (s0 : σ) (el er : Mat) (s1 : σ)
    (h : m.mziErrorMatrices seedFn randn testSeed s0 =
      Except.ok ((el, er), s1)) :
    (m.mziErrorTensors seedFn randn testSeed sinF cosF quarterPi stripe s0 =
      Except.ok
        ((matMap (2 * ·) (stripe (matMul
            (matMap (fun x => sinF (quarterPi + x)) el)
            (matMap (fun x => sinF (quarterPi + x)) er)) m.units),
          matMap (2 * ·) (stripe (matMul
            (matMap (fun x => cosF (quarterPi + x)) el)
            (matMap (fun x => sinF (quarterPi + x)) er)) m.units),
          matMap (2 * ·) (stripe (matMul
            (matMap (fun x => sinF (quarterPi + x)) el)
            (matMap (fun x => cosF (quarterPi + x)) er)) m.units),
          matMap (2 * ·) (stripe (matMul
            (matMap (fun x => cosF (quarterPi + x)) el)
            (matMap (fun x => cosF (quarterPi + x)) er)) m.units)), s1))
  ∧ (∀ (s0' s1' : σ),
      m.mziErrorMatrices seedFn randn testSeed s0' =
          Except.ok ((el, er), s1') →
      (m.mziErrorTensors seedFn randn testSeed sinF cosF quarterPi
          stripe s0').map (fun p => p.1)
        = (m.mziErrorTensors seedFn randn testSeed sinF cosF quarterPi
          stripe s0).map (fun p => p.1)) := by
  constructor
  · unfold MeshModel.mziErrorTensors
    rw [h]
  · intro s0' s1' h'
    unfold MeshModel.mziErrorTensors
    rw [h, h']
    rfl

/-- C3 witness. -/
theorem mzi_error_tensors_spec_witness :
    tensorModel.mziErrorTensors (fun n => n) (fun s _ _ => ([], s)) 0
        (fun x => x + 1) (fun x => x + 2) 0 (fun a _ => a) 0 =
      Except.ok (([[8]], [[12]], [[12]], [[18]]), 0) := by
  have hmat : tensorModel.mziErrorMatrices (fun n => n)
      (fun s _ _ => (([] : Mat), s)) 0 0 = Except.ok (([[1]], [[1]]), 0) := by
    rw [mziErrorMatrices_array (fun n => n) (fun s _ _ => (([] : Mat), s)) 0
      tensorModel 0 [[1]] rfl]
    norm_num [tensorModel, matShape, matMul]
  have h := (mzi_error_tensors_spec (fun n => n) (fun s _ _ => (([] : Mat), s)) 0
    (fun x => x + 1) (fun x => x + 2) 0 (fun a _ => a) tensorModel 0
    [[1]] [[1]] 0 hmat).1
  refine h.trans ?_
  norm_num [tensorModel, matMul, matMap]

theorem triNumTunable_length (units : Nat) (hu : 2 ≤ units) :
    (triNumTunable units).length = 2 * units - 3 := by
  simp only [triNumTunable, triProfile, List.length_map, List.length_append,
    List.length_range]
  omega

theorem triProfile_getD (units l : Nat) (hu : 2 ≤ units)
    (hl : l < 2 * units - 3) :
    (triProfile units).getD l 0 =
      if l < units - 1 then l + 1 else 2 * units - 3 - l := by
  unfold triProfile
  rcases Nat.lt_or_ge l (units - 1) with h | h
  · rw [List.getD_eq_getElem?_getD, List.getElem?_append,
      if_pos (by simp only [List.length_map, List.length_range]; exact h),
      List.getElem?_map, List.getElem?_range h]
    simp [h]
  · rw [List.getD_eq_getElem?_getD, List.getElem?_append,
      if_neg (by simp only [List.length_map, List.length_range]; omega)]
    simp only [List.length_map, List.length_range]
    rw [List.getElem?_map,
      List.getElem?_range (by omega : l - (units - 1) < units - 2)]
    simp only [Option.map_some', Option.getD_some]
    rw [if_neg (by omega)]
    omega

theorem triNumTunable_getD (units l : Nat) (hu : 2 ≤ units)
    (hl : l < 2 * units - 3) :
    (triNumTunable units).getD l 0 =
      ((if l < units - 1 then l + 1 else 2 * units - 3 - l) + 1) / 2 := by
  unfold triNumTunable
  have hlen : l < (triProfile units).length := by
    simp only [triProfile, List.length_append, List.length_map,
      List.length_range]
    omega
  rw [List.getD_eq_getElem?_getD, List.getElem?_map,
    List.getElem?_eq_getElem hlen]
  simp only [Option.map_some', Option.getD_some]
  rw [← List.getD_eq_getElem (triProfile units) 0 hlen,
    triProfile_getD units l hu hl]

theorem rect_construct (units L : Nat) (hd : Bool) (bs : BSErr)
    (hu : 2 ≤ units) :
    meshModelInit (L + 1) units hd (some (rectNumTunable units L)) bs
        false false =
      Except.ok
        { units := units, numLayers := L,
          numTunable := rectNumTunable units L,
          mask := (List.range L).map
            (fun l => maskRow ((rectNumTunable units L).getD l 0) (units / 2)),
          hadamard := hd, bsError := bs, testing := false,
          useDifferentErrors := false } := by
  rw [meshModelInit_spec,
    if_neg (by simp [rectNumTunable_length]),
    if_neg (by simp [rectNumTunable_length]),
    if_neg (by omega)]

theorem tri_construct (units : Nat) (hd : Bool) (bs : BSErr)
    (hu : 2 ≤ units) :
    meshModelInit (2 * units - 3 + 1) units hd (some (triNumTunable units))
        bs false false =
      Except.ok
        { units := units, numLayers := 2 * units - 3,
          numTunable := triNumTunable units,
          mask := (List.range (2 * units - 3)).map
            (fun l => maskRow ((triNumTunable units).getD l 0) (units / 2)),
          hadamard := hd, bsError := bs, testing := false,
          useDifferentErrors := false } := by
  rw [meshModelInit_spec,
    if_neg (by simp [triNumTunable_length units hu]),
    if_neg (by simp [triNumTunable_length units hu]),
    if_neg (by omega)]

theorem prmFlatten_length (units : Nat) (bsizes : List Nat) :
    ((bsizes.map (fun b => rectNumTunable units b)).flatten).length
      = bsizes.sum := by
  induction bsizes with
  | nil => rfl
  | cons b rest ih =>
    simp only [List.map_cons, List.flatten_cons,
      List.length_append, rectNumTunable_length, List.sum_cons]
    exact congrArg (b + ·) ih

theorem prmNumTunable_ok (units : Nat) (bsizes : List Nat)
    (h : bsizes ≠ []) :
    prmNumTunable units bsizes =
      Except.ok ((bsizes.map (fun b => rectNumTunable units b)).flatten) := by
  rcases bsizes with _ | ⟨b, rest⟩
  · exact absurd rfl h
  · rfl

theorem prmNumTunable_nil (units : Nat) :
    prmNumTunable units [] = Except.error MeshErr.valueErrorHstack := rfl

theorem prm_construct (units : Nat) (bsizes : List Nat) (hd : Bool)
    (bs : BSErr) (hu : 2 ≤ units) :
    meshModelInit (bsizes.sum + 1) units hd
        (some ((bsizes.map (fun b => rectNumTunable units b)).flatten))
        bs false false =
      Except.ok
        { units := units, numLayers := bsizes.sum,
          numTunable := (bsizes.map (fun b => rectNumTunable units b)).flatten,
          mask := (List.range bsizes.sum).map
            (fun l => maskRow
              (((bsizes.map (fun b => rectNumTunable units b)).flatten).getD
                l 0) (units / 2)),
          hadamard := hd, bsError := bs, testing := false,
          useDifferentErrors := false } := by
  rw [meshModelInit_spec,
    if_neg (by simp only [prmFlatten_length]; omega),
    if_neg (by simp only [prmFlatten_length]; omega),
    if_neg (by omega)]

/-- C6: the rectangular mesh resolves its layer count by truthiness
(`num_layers` when given and nonzero, else `units`), constructs
successfully for `units ≥ 2`, and its tunable-count array gives every
even-indexed layer `units / 2` devices and every odd-indexed layer
`(units - 1) / 2`; in particular `units = 4` gives layer 0 two tunable
devices and layer 1 one. -/
theorem rectangular_tunable_policy (units : Nat) (numLayers : Option Nat)
    (hd : Bool) (bs : BSErr) (hu : 2 ≤ units) :
    (∃ m, rectangularMeshModel units numLayers hd bs = Except.ok m
      ∧ m.numLayers = rectResolveNumLayers units numLayers
      ∧ (∀ l, l < m.numLayers →
          m.numTunable.getD l 0 =
            if l % 2 = 0 then units / 2 else (units - 1) / 2))
  ∧ (∀ n, numLayers = some n → n ≠ 0 →
      rectResolveNumLayers units numLayers = n)
  ∧ (numLayers = none → rectResolveNumLayers units numLayers = units)
  ∧ (∃ m4, rectangularMeshModel 4 none false (BSErr.scalar 0) = Except.ok m4
      ∧ m4.numTunable.getD 0 0 = 2 ∧ m4.numTunable.getD 1 0 = 1) := by
  refine ⟨?_, ?_, ?_, ?_⟩
  · refine ⟨_, rect_construct units (rectResolveNumLayers units numLayers)
      hd bs hu, rfl, ?_⟩
    intro l hl
    rw [rectNumTunable_getD units (rectResolveNumLayers units numLayers) l hl]
    rcases Nat.mod_two_eq_zero_or_one l with h | h <;> simp [h]
  · intro n hn hne
    subst hn
    simp [rectResolveNumLayers, hne]
  · intro hn
    subst hn
    rfl
  · exact ⟨_, rect_construct 4 4 false (BSErr.scalar 0) (by omega),
      by decide, by decide⟩

/-- C6 witness. -/
theorem rectangular_tunable_policy_witness :
    rectResolveNumLayers 6 (some 3) = 3 :=
  (rectangular_tunable_policy 6 (some 3) false (BSErr.scalar 0)
    (by omega)).2.1 3 rfl (by omega)

/-- C7: the triangular mesh always has `L = 2·units − 3` layers (the
constructor takes no layer-count parameter) and its tunable-count array is
the ceil-halving `(v + 1) / 2` of the diamond profile
`v = (1, …, units−1, units−2, …, 1)`; with `units = 5` this is `L = 7` and
counts `[1, 1, 2, 2, 2, 1, 1]`. -/
theorem triangular_layers_and_tunable (units : Nat) (hd : Bool) (bs : BSErr)
    (hu : 2 ≤ units) :
    (∃ m, triangularMeshModel units hd bs = Except.ok m
      ∧ m.numLayers = 2 * units - 3
      ∧ m.numTunable = (triProfile units).map (fun v => (v + 1) / 2)
      ∧ (∀ l, l < 2 * units - 3 →
          m.numTunable.getD l 0 =
            ((if l < units - 1 then l + 1 else 2 * units - 3 - l) + 1) / 2))
  ∧ triProfile 5 = [1, 2, 3, 4, 3, 2, 1]
  ∧ (∃ m5, triangularMeshModel 5 false (BSErr.scalar 0) = Except.ok m5
      ∧ m5.numLayers = 7 ∧ m5.numTunable = [1, 1, 2, 2, 2, 1, 1]) := by
  refine ⟨?_, by decide, ?_⟩
  · refine ⟨_, tri_construct units hd bs hu, rfl, rfl, ?_⟩
    intro l hl
    exact triNumTunable_getD units l hu hl
  · exact ⟨_, tri_construct 5 false (BSErr.scalar 0) (by omega),
      by decide, by decide⟩

/-- C7 witness. -/
theorem triangular_layers_and_tunable_witness :
    triProfile 5 = [1, 2, 3, 4, 3, 2, 1] :=
  (triangular_layers_and_tunable 5 false (BSErr.scalar 0) (by omega)).2.1

/-- C8: block-size resolution follows the strict precedence — a present
`tunable_layers_per_block` goes through the efficient heuristic and
overrides everything; otherwise the explicit lists are used only when both
are supplied; otherwise the default heuristic applies.  When the resolved
block list is empty, `np.hstack` of the empty `num_mzis_list` raises and
no model is built; for every nonempty resolved block list the model is
built with the tunable-count array being the concatenation, over the
resolved blocks, of one rectangular alternating block of length `B` per
block of size `B`, so its total length (and the model's layer count) is
the sum of the block sizes. -/
theorem prm_block_resolution (eff : Nat → Nat → List Nat × List Nat)
    (dflt : Nat → List Nat × List Nat) (units : Nat)
    (tlpb : Option Nat) (ntll sf : Option (List Nat))
    (bs : BSErr) (hd : Bool) (hu : 2 ≤ units) :
    (∀ t, tlpb = some t →
      prmBlockSizes eff dflt units tlpb ntll sf = eff units t)
  ∧ (∀ sizes freqs, tlpb = none → ntll = some sizes → sf = some freqs →
      prmBlockSizes eff dflt units tlpb ntll sf = (sizes, freqs))
  ∧ (tlpb = none → (ntll = none ∨ sf = none) →
      prmBlockSizes eff dflt units tlpb ntll sf = dflt units)
  ∧ (∀ b, (rectNumTunable units b).length = b)
  ∧ ((prmBlockSizes eff dflt units tlpb ntll sf).1 = [] →
      permutingRectangularMeshModel eff dflt units tlpb ntll sf bs hd =
        Except.error MeshErr.valueErrorHstack)
  ∧ ((prmBlockSizes eff dflt units tlpb ntll sf).1 ≠ [] →
      ∃ m, permutingRectangularMeshModel eff dflt units tlpb ntll sf bs hd =
        Except.ok m
      ∧ m.numTunable =
          ((prmBlockSizes eff dflt units tlpb ntll sf).1.map
            (fun b => rectNumTunable units b)).flatten
      ∧ m.numTunable.length =
          (prmBlockSizes eff dflt units tlpb ntll sf).1.sum
      ∧ m.numLayers = (prmBlockSizes eff dflt units tlpb ntll sf).1.sum) := by
  refine ⟨?_, ?_, ?_, fun b => rectNumTunable_length units b, ?_, ?_⟩
  · intro t ht
    subst ht
    rfl
  · intro sizes freqs h0 h1 h2
    subst h0; subst h1; subst h2
    rfl
  · intro h0 hor
    subst h0
    rcases hor with h1 | h1
    · subst h1
      rcases sf with _ | f
      · rfl
      · rfl
    · subst h1
      rcases ntll with _ | sizes
      · rfl
      · rfl
  · intro hnil
    unfold permutingRectangularMeshModel
    rw [hnil]
    rfl
  · intro hne
    have hok : permutingRectangularMeshModel eff dflt units tlpb ntll sf
        bs hd =
        Except.ok
          { units := units,
            numLayers := (prmBlockSizes eff dflt units tlpb ntll sf).1.sum,
            numTunable := ((prmBlockSizes eff dflt units tlpb ntll
              sf).1.map (fun b => rectNumTunable units b)).flatten,
            mask := (List.range
              (prmBlockSizes eff dflt units tlpb ntll sf).1.sum).map
              (fun l => maskRow
                ((((prmBlockSizes eff dflt units tlpb ntll sf).1.map
                  (fun b => rectNumTunable units b)).flatten).getD l 0)
                (units / 2)),
            hadamard := hd, bsError := bs, testing := false,
            useDifferentErrors := false } := by
      unfold permutingRectangularMeshModel
      rw [prmNumTunable_ok units _ hne]
      exact prm_construct units
        (prmBlockSizes eff dflt units tlpb ntll sf).1 hd bs hu
    exact ⟨_, hok, rfl, prmFlatten_length units _, rfl⟩

/-- C8 witness. -/
theorem prm_block_resolution_witness :
    prmBlockSizes (fun _ t => ([t], [1])) (fun u => ([u], [1])) 4
      (some 2) none none = ([2], [1])
  ∧ permutingRectangularMeshModel (fun _ t => ([t], [1]))
      (fun u => ([u], [1])) 4 none (some []) (some []) (BSErr.scalar 0)
      false = Except.error MeshErr.valueErrorHstack :=
  ⟨(prm_block_resolution (fun _ t => ([t], [1])) (fun u => ([u], [1])) 4
      (some 2) none none (BSErr.scalar 0) false (by omega)).1 2 rfl,
   (prm_block_resolution (fun _ t => ([t], [1])) (fun u => ([u], [1])) 4
      none (some []) (some []) (BSErr.scalar 0) false
      (by omega)).2.2.2.2.1 rfl⟩

/-- C10: passing `num_layers = 0` to the rectangular mesh behaves exactly
as leaving it unspecified — Python truthiness maps both `None` and `0` to
the `units` default — so a zero layer count can never be requested, and the
`num_layers = 0` construction succeeds (for `units ≥ 2`) with `units`
layers. -/
theorem rectangular_zero_num_layers (units : Nat) (hd : Bool) (bs : BSErr) :
    rectangularMeshModel units (some 0) hd bs =
      rectangularMeshModel units none hd bs
  ∧ rectResolveNumLayers units (some 0) = units
  ∧ (2 ≤ units → ∃ m,
      rectangularMeshModel units (some 0) hd bs = Except.ok m
        ∧ m.numLayers = units) := by
  refine ⟨rfl, rfl, ?_⟩
  intro hu
  exact ⟨_, rect_construct units units hd bs hu, rfl⟩

/-- C10 witness. -/
theorem rectangular_zero_num_layers_witness :
    rectangularMeshModel 4 (some 0) false (BSErr.scalar 0) =
      rectangularMeshModel 4 none false (BSErr.scalar 0)
  ∧ (∃ m, rectangularMeshModel 4 (some 0) false (BSErr.scalar 0) =
      Except.ok m ∧ m.numLayers = 4) :=
  ⟨(rectangular_zero_num_layers 4 false (BSErr.scalar 0)).1,
   (rectangular_zero_num_layers 4 false (BSErr.scalar 0)).2.2 (by omega)⟩

end Neurophox
